import Mathlib
/-!
Shallow embedding of the RAG chatbot backend (Node/TypeScript backend of the
`rag_llm_chatbot` repository).

The embedding covers:
* the data model exchanged between the controller, the vector store wrapper
  (`vectorStore.ts`) and the Python-microservice client (`pythonService.ts`);
* the hybrid re-ranking algorithm, modelled from the specification (the Python
  microservice `python_service/app.py` implementing `/rerank` is not part of
  the TypeScript sources);
* the `ChatController.query` request pipeline (the enhanced controller:
  analyze → embed → vector search → re-rank → generate), instrumented with an
  explicit log of collaborator calls so that non-invocation properties can be
  stated;
* the service-client wrappers (`embedTexts`, `embedQuery`, `rerank`,
  `analyzeQuery`, `generate`) and the vector-store wrappers (`addDocuments`,
  `queryWithEmbedding`, `getCollectionStats`).

Numeric scores are modelled as rationals; external collaborators (the Python
HTTP microservice and the ChromaDB collection) are modelled as an explicit
environment of oracle functions whose outcomes the theorems quantify over.
-/

/-- Document / result metadata, modelled as a finite key-value record. -/
abbrev Metadata := List (String × String)

/-- A search result returned by the vector store
(`SearchResult` in `types`, produced by `vectorStore.queryWithEmbedding`):
document text, metadata and a vector-similarity score. -/
structure SearchResult where
  text : String
  metadata : Metadata
  score : ℚ
deriving Repr, DecidableEq

/-- The per-component score breakdown attached to every re-ranked result
(`score_breakdown` in `PythonService.rerank`'s result type). -/
structure ScoreBreakdown where
  vector : ℚ
  keyword : ℚ
  exact_match : ℚ
  length : ℚ
  position : ℚ
deriving Repr, DecidableEq

/-- A re-ranked result (`PythonService.rerank`'s result element type), together
with the candidate's original rank position, which the spec's data model
(§3, SearchCandidate/ScoredResult) records for tie-breaking. -/
structure RerankedResult where
  text : String
  score : ℚ
  metadata : Metadata
  position : Nat
  final_score : ℚ
  score_breakdown : ScoreBreakdown
deriving Repr, DecidableEq

/-- Modelled from the spec: tokenization used by the lexical scores of the
re-ranker (§4.3: query terms "case-insensitively and lightly normalized");
lower-case and split on spaces, dropping empty tokens. -/
def tokenize (s : String) : List String :=
  (s.toLower.splitOn " ").filter (fun t => t ≠ "")

/-- Modelled from the spec (§4.3 keyword component): fraction of the distinct
query tokens that occur among the candidate text's tokens; in [0,1]. -/
def keywordScore (query text : String) : ℚ :=
  let qts := (tokenize query).dedup
  let tts := tokenize text
  if qts.length = 0 then 0
  else ((qts.filter (fun t => tts.contains t)).length : ℚ) / (qts.length : ℚ)

/-- Substring occurrence test: `needle` occurs in `hay` iff splitting `hay`
on `needle` yields at least two pieces. -/
def containsSub (hay needle : String) : Bool :=
  decide (2 ≤ (hay.splitOn needle).length)

/-- Modelled from the spec (§4.3 exact-match component): 1 if the full query
string appears verbatim (case-insensitively) in the candidate text, else 0. -/
def exactMatchScore (query text : String) : ℚ :=
  if containsSub text.toLower query.toLower then 1 else 0

/-- Modelled from the spec (§4.3 length component): inverted-U in the token
count of the passage, peaking at a target length of 50 tokens; in [0,1]. -/
def lengthScore (text : String) : ℚ :=
  let n := (tokenize text).length
  if n ≤ 50 then (n : ℚ) / 50 else 50 / (n : ℚ)

/-- Modelled from the spec (§4.3 position component): decaying bonus
`1 / (1 + position)` for candidates ranked highly by the vector search. -/
def positionScore (pos : Nat) : ℚ := 1 / (1 + (pos : ℚ))

/-- Modelled from the spec (§4.3): score one candidate at its original rank
position; final score is the fixed-weight linear combination with the spec's
recommended weights (vector 0.4, keyword 0.25, exact 0.15, length 0.1,
position 0.1). -/
def mkScored (query : String) (c : SearchResult) (pos : Nat) : RerankedResult :=
  let br : ScoreBreakdown :=
    { vector := c.score
      keyword := keywordScore query c.text
      exact_match := exactMatchScore query c.text
      length := lengthScore c.text
      position := positionScore pos }
  { text := c.text
    score := c.score
    metadata := c.metadata
    position := pos
    final_score := (2/5 : ℚ) * br.vector + (1/4 : ℚ) * br.keyword
      + (3/20 : ℚ) * br.exact_match + (1/10 : ℚ) * br.length
      + (1/10 : ℚ) * br.position
    score_breakdown := br }

/-- The total preorder the re-ranker sorts by: higher `final_score` first,
ties broken by lower original position (§4.3). -/
def rerankLE (a b : RerankedResult) : Bool :=
  decide (b.final_score < a.final_score ∨
    (a.final_score = b.final_score ∧ a.position ≤ b.position))

/-- Modelled from the spec: the `/rerank` endpoint of the Python microservice
(`python_service/app.py`, not under the TypeScript sources). Scores every
candidate at its original 0-based position, sorts descending by final score
with ties broken by ascending position, truncates to `topK`; an empty
candidate list is returned unscored (§4.3). -/
def rerankModel (query : String) (candidates : List SearchResult) (topK : Nat) :
    List RerankedResult :=
  if candidates.isEmpty then []
  else
    let scored := candidates.enum.map (fun p => mkScored query p.2 p.1)
    (scored.mergeSort rerankLE).take topK

/-- Concrete candidate used to witness the re-ranking theorem. -/
def sampleCandidate : SearchResult :=
  { text := "machine learning course", metadata := [("source", "kb")], score := 9/10 }

/-- Outcome of one HTTP call to the Python microservice as seen by the
axios-based client (`pythonService.ts`): the request may throw (network
error or timeout), or the endpoint replies with `success = false` and an
optional error string, or with `success = true` and data
(`PythonServiceResponse`). -/
inductive SvcRaw (α : Type) where
  | thrown (msg : String)
  | failure (error : Option String)
  | ok (data : α)
deriving Repr, DecidableEq

/-- Result of `PythonService.analyzeQuery` (`query_type`,
`suggested_params.top_k`, `suggested_params.expand_query`, `query_length`,
`complexity`). -/
structure QueryAnalysisResult where
  query_type : String
  top_k : Nat
  expand_query : Bool
  query_length : Nat
  complexity : String
deriving Repr, DecidableEq

/-- Result of `PythonService.embedQuery`: the embedding, the original query
and the expanded query (`null` when no expansion was produced). -/
structure EmbedQueryResult where
  embedding : List ℚ
  original_query : String
  expanded_query : Option String
deriving Repr, DecidableEq

/-- Result of `PythonService.generate`: generated text, model name and the
number of context chunks used. -/
structure GenerateResult where
  response : String
  model_used : String
  context_chunks : Nat
deriving Repr, DecidableEq

/-- The external collaborators of the backend, as oracle functions: the five
Python-microservice endpoints and the ChromaDB collection operations. The
theorems quantify over this environment. -/
structure Env where
  analyzeRaw : String → SvcRaw QueryAnalysisResult
  embedQueryRaw : String → Bool → SvcRaw EmbedQueryResult
  embedTextsRaw : List String → SvcRaw (List (List ℚ))
  rerankRaw : String → List SearchResult → Nat → SvcRaw (List RerankedResult)
  generateRaw : String → List RerankedResult → Bool → SvcRaw GenerateResult
  chromaQuery : List ℚ → Nat → Except String (List SearchResult)
  chromaAdd : List (String × String × Metadata) → Except String Unit
  collectionCount : Except String Nat

namespace PythonService

/-- `PythonService.embedTexts`: a `success = false` reply becomes a thrown
error carrying the reply's error string (defaulting to "Embedding failed");
the catch block logs the error and rethrows it. -/
def embedTexts (env : Env) (texts : List String) : Except String (List (List ℚ)) :=
  match env.embedTextsRaw texts with
  | .thrown m => .error m
  | .failure e => .error (e.getD "Embedding failed")
  | .ok d => .ok d

/-- `PythonService.embedQuery`: same propagation pattern, with default
message "Query embedding failed". -/
def embedQuery (env : Env) (query : String) (expand : Bool) :
    Except String EmbedQueryResult :=
  match env.embedQueryRaw query expand with
  | .thrown m => .error m
  | .failure e => .error (e.getD "Query embedding failed")
  | .ok d => .ok d

/-- `PythonService.rerank`: same propagation pattern, with default message
"Re-ranking failed". -/
def rerank (env : Env) (query : String) (results : List SearchResult)
    (topK : Nat) : Except String (List RerankedResult) :=
  match env.rerankRaw query results topK with
  | .thrown m => .error m
  | .failure e => .error (e.getD "Re-ranking failed")
  | .ok d => .ok d

/-- `PythonService.analyzeQuery`: any internal failure (thrown request or
`success = false` reply) is caught and replaced by the safe default analysis
(`general`, top-k 5, expansion on, `medium`, query length = number of
space-separated words). The function is total: no failure surfaces. -/
def analyzeQuery (env : Env) (query : String) : QueryAnalysisResult :=
  match env.analyzeRaw query with
  | .ok d => d
  | _ =>
    { query_type := "general"
      top_k := 5
      expand_query := true
      query_length := (query.splitOn " ").length
      complexity := "medium" }

/-- `PythonService.generate`: same propagation pattern, with default message
"Generation failed". -/
def generate (env : Env) (query : String) (contextDocs : List RerankedResult)
    (includeSources : Bool) : Except String GenerateResult :=
  match env.generateRaw query contextDocs includeSources with
  | .thrown m => .error m
  | .failure e => .error (e.getD "Generation failed")
  | .ok d => .ok d

end PythonService

/-- A knowledge-base item to ingest (`KnowledgeBaseItem` in `types`). -/
structure KnowledgeBaseItem where
  id : String
  text : String
  metadata : Metadata
deriving Repr, DecidableEq

/-- The stored collection contents (id, text, metadata per document). -/
structure StoreState where
  docs : List (String × String × Metadata)
deriving Repr, DecidableEq

/-- Result of `VectorStoreService.getCollectionStats`. -/
structure CollectionStats where
  count : Nat
deriving Repr, DecidableEq

/-- One call to an external collaborator, for the instrumented call log. -/
inductive Call where
  | analyze (query : String)
  | embedQuery (query : String) (expand : Bool)
  | embedTexts (texts : List String)
  | indexQuery (nResults : Nat)
  | indexAdd (ids : List String)
  | rerank (query : String) (results : List SearchResult) (topK : Nat)
  | generate (query : String) (contextDocs : List RerankedResult)
      (includeSources : Bool)
  | indexCount
deriving Repr, DecidableEq

namespace VectorStore

/-- `VectorStoreService.queryWithEmbedding`: queries the ChromaDB collection
with a precomputed embedding; the catch block logs and rethrows, so the
collection's failure passes through unchanged. -/
def queryWithEmbedding (env : Env) (embedding : List ℚ) (nResults : Nat) :
    Except String (List SearchResult) :=
  env.chromaQuery embedding nResults

/-- `VectorStoreService.addDocuments`: returns immediately on an empty item
list; otherwise embeds all texts via the Python service and adds ids,
embeddings, texts and metadata to the collection. Returns the new store
state, the collaborator calls made, and the outcome. -/
def addDocuments (env : Env) (st : StoreState) (items : List KnowledgeBaseItem) :
    StoreState × List Call × Except String Unit :=
  if items.length = 0 then (st, [], .ok ())
  else
    let texts := items.map (fun i => i.text)
    match PythonService.embedTexts env texts with
    | .error m => (st, [Call.embedTexts texts], .error m)
    | .ok _ =>
      match env.chromaAdd (items.map fun i => (i.id, i.text, i.metadata)) with
      | .error m =>
        (st, [Call.embedTexts texts, Call.indexAdd (items.map fun i => i.id)],
          .error m)
      | .ok _ =>
        ({ docs := st.docs ++ items.map fun i => (i.id, i.text, i.metadata) },
          [Call.embedTexts texts, Call.indexAdd (items.map fun i => i.id)],
          .ok ())

/-- `VectorStoreService.getCollectionStats`: returns the collection count; on
any error the catch block returns `{ count: 0 }` instead of failing, so the
result is always a normal value. -/
def getCollectionStats (env : Env) : Except String CollectionStats :=
  match env.collectionCount with
  | .ok n => .ok { count := n }
  | .error _ => .ok { count := 0 }

end VectorStore

/-- A JSON value as found in a request body field (as far as the guard
`!query || typeof query !== 'string'` can distinguish them). -/
inductive JsValue where
  | str (s : String)
  | num (q : ℚ)
  | bool (b : Bool)
  | null
deriving Repr, DecidableEq

/-- JavaScript truthiness of a JSON value (empty string, zero, `false` and
`null` are falsy). -/
def JsValue.truthy : JsValue → Bool
  | .str s => decide (s ≠ "")
  | .num q => decide (q ≠ 0)
  | .bool b => b
  | .null => false

/-- `typeof v === 'string'`. -/
def JsValue.isString : JsValue → Bool
  | .str _ => true
  | _ => false

/-- The string payload of a string-valued JSON value. -/
def JsValue.asString : JsValue → String
  | .str s => s
  | _ => ""

/-- The parsed request body of `POST /query`: the `query` field, absent
(`undefined`) when the body lacks it. -/
structure ReqBody where
  query : Option JsValue
deriving Repr, DecidableEq

/-- A user-visible source entry of the query response
(`sources` in `ChatController.query`). -/
structure SourceEntry where
  text : String
  metadata : Metadata
  score : ℚ
  scoreBreakdown : ScoreBreakdown
deriving Repr, DecidableEq

/-- The `metadata` object of a successful query response. `expandedQuery` is
doubly optional: the outer `none` means the property is `undefined` (omitted
from the serialized JSON), `some none` means it is an explicit `null`, and
`some (some s)` a string value. -/
structure QueryMeta where
  queryType : String
  contextChunks : Nat
  expandedQuery : Option (Option String)
  modelUsed : String
deriving Repr, DecidableEq

/-- A response body sent by the controller: either a query response (the
empty-knowledge-base branch carries no `metadata` object) or an error body
with an optional `details` field. -/
inductive RespBody where
  | success (answer : String) (sources : List SourceEntry) (meta : Option QueryMeta)
  | failure (error : String) (details : Option String)
deriving Repr, DecidableEq

/-- An HTTP response: status code and body. -/
structure HttpResponse where
  status : Nat
  body : RespBody
deriving Repr, DecidableEq

/-- The canned answer of the empty-knowledge-base branch of
`ChatController.query`. -/
def noKnowledgeAnswer : String :=
  "I don't have any information in my knowledge base yet. Please load the knowledge base or upload some documents first."

/-- Projection of a re-ranked result onto a user-visible source entry
(`rerankedResults.slice(0, 3).map(...)` in `ChatController.query`). -/
def mkSource (r : RerankedResult) : SourceEntry :=
  { text := r.text
    metadata := r.metadata
    score := r.final_score
    scoreBreakdown := r.score_breakdown }

namespace ChatController

/-- The 400 response of the request-validation guard. -/
def badRequest : HttpResponse :=
  { status := 400, body := .failure "Query is required and must be a string" none }

/-- The 500 response of the catch-all block: generic error plus the caught
error's message in `details`. -/
def serverError (m : String) : HttpResponse :=
  { status := 500, body := .failure "Failed to process query" (some m) }

/-- The body of `ChatController.query` after request validation: analyze the
query, embed it (with the analyzer-chosen expansion flag), fetch
`min(topK * 2, 15)` nearest neighbors, short-circuit on an empty result set,
re-rank, generate, and assemble the response. Returns the response together
with the ordered log of collaborator calls. -/
def pipeline (env : Env) (q : String) : HttpResponse × List Call :=
  let analysis := PythonService.analyzeQuery env q
  let topK := analysis.top_k
  let expand := analysis.expand_query
  let log1 : List Call := [Call.analyze q]
  match PythonService.embedQuery env q expand with
  | .error m => (serverError m, log1 ++ [Call.embedQuery q expand])
  | .ok eq =>
    let log2 := log1 ++ [Call.embedQuery q expand]
    let nFetch := min (topK * 2) 15
    match VectorStore.queryWithEmbedding env eq.embedding nFetch with
    | .error m => (serverError m, log2 ++ [Call.indexQuery nFetch])
    | .ok initialResults =>
      let log3 := log2 ++ [Call.indexQuery nFetch]
      if initialResults.isEmpty then
        ({ status := 200, body := .success noKnowledgeAnswer [] none }, log3)
      else
        match PythonService.rerank env q initialResults topK with
        | .error m => (serverError m, log3 ++ [Call.rerank q initialResults topK])
        | .ok rerankedResults =>
          let log4 := log3 ++ [Call.rerank q initialResults topK]
          match PythonService.generate env q rerankedResults true with
          | .error m => (serverError m, log4 ++ [Call.generate q rerankedResults true])
          | .ok gen =>
            ({ status := 200
               body := .success gen.response
                 ((rerankedResults.take 3).map mkSource)
                 (some { queryType := analysis.query_type
                         contextChunks := gen.context_chunks
                         expandedQuery :=
                           if eq.expanded_query = some q then none
                           else some eq.expanded_query
                         modelUsed := gen.model_used }) },
             log4 ++ [Call.generate q rerankedResults true])

/-- `ChatController.query` (the enhanced controller of `chatController.ts`):
reject a missing, falsy or non-string `query` field with a 400 before any
collaborator is contacted, otherwise run the retrieval pipeline. -/
def query (env : Env) (body : ReqBody) : HttpResponse × List Call :=
  match body.query with
  | none => (badRequest, [])
  | some v =>
    if !v.truthy || !v.isString then (badRequest, [])
    else pipeline env v.asString

end ChatController

/-- The embed-query reply of the concrete happy-path environment. -/
def happyEmbed (exp : Option String) (q : String) : EmbedQueryResult :=
  { embedding := [1, 0], original_query := q, expanded_query := exp }

/-- The generator reply of the concrete happy-path environment. -/
def happyGen (n : Nat) : GenerateResult :=
  { response := "answer", model_used := "phi3", context_chunks := n }

/-- A concrete environment whose collaborators all succeed: the analyzer
suggests top-k 4 with expansion on, the embedder reports `exp` as the
expanded query, the index returns `results`, the re-ranker runs the modelled
algorithm and the generator returns a fixed answer. Used by witnesses and
counterexamples. -/
def happyEnv (exp : Option String) (results : List SearchResult) : Env :=
  { analyzeRaw := fun _ => .ok
      { query_type := "general", top_k := 4, expand_query := true,
        query_length := 3, complexity := "medium" }
    embedQueryRaw := fun q _ => .ok (happyEmbed exp q)
    embedTextsRaw := fun ts => .ok (ts.map fun _ => [1, 0])
    rerankRaw := fun q rs k => .ok (rerankModel q rs k)
    generateRaw := fun _ ctx _ => .ok (happyGen ctx.length)
    chromaQuery := fun _ _ => .ok results
    chromaAdd := fun _ => .ok ()
    collectionCount := .ok 0 }

/-- The `metadata.expandedQuery` property of a response: `some` of the stored
nullable value when the response is a successful one whose metadata object
defines the property, `none` when the property is absent (omitted from the
serialized JSON). -/
def HttpResponse.expandedQueryField : HttpResponse → Option (Option String)
  | { body := RespBody.success _ _ (some m), .. } => m.expandedQuery
  | _ => none

/-- Modelled from the spec: the text the embedder actually embedded, as it
reports it — the expanded query when one was produced, otherwise the original
query (a null `expanded_query` means no expansion replaced the original). -/
def embeddedText (eq : EmbedQueryResult) : String :=
  eq.expanded_query.getD eq.original_query

/-- A pipeline-stage failure other than an analyzer failure: the embed,
index-query, re-rank or generate step of the query pipeline failed with
service-level message `m` (all earlier stages having succeeded). -/
def pipelineFails (env : Env) (q : String) (m : String) : Prop :=
  PythonService.embedQuery env q (PythonService.analyzeQuery env q).expand_query = .error m
  ∨ (∃ eq, PythonService.embedQuery env q (PythonService.analyzeQuery env q).expand_query = .ok eq
      ∧ VectorStore.queryWithEmbedding env eq.embedding
          (min ((PythonService.analyzeQuery env q).top_k * 2) 15) = .error m)
  ∨ (∃ eq rs, PythonService.embedQuery env q (PythonService.analyzeQuery env q).expand_query = .ok eq
      ∧ VectorStore.queryWithEmbedding env eq.embedding
          (min ((PythonService.analyzeQuery env q).top_k * 2) 15) = .ok rs
      ∧ rs ≠ []
      ∧ PythonService.rerank env q rs (PythonService.analyzeQuery env q).top_k = .error m)
  ∨ (∃ eq rs rr, PythonService.embedQuery env q (PythonService.analyzeQuery env q).expand_query = .ok eq
      ∧ VectorStore.queryWithEmbedding env eq.embedding
          (min ((PythonService.analyzeQuery env q).top_k * 2) 15) = .ok rs
      ∧ rs ≠ []
      ∧ PythonService.rerank env q rs (PythonService.analyzeQuery env q).top_k = .ok rr
      ∧ PythonService.generate env q rr true = .error m)

@[simp] lemma mkScored_position (q : String) (c : SearchResult) (pos : Nat) :
    (mkScored q c pos).position = pos := rfl

lemma rerankLE_trans (a b c : RerankedResult) (hab : rerankLE a b = true)
    (hbc : rerankLE b c = true) : rerankLE a c = true := by
  simp only [rerankLE, decide_eq_true_eq] at *
  rcases hab with h1 | ⟨h1, h1p⟩ <;> rcases hbc with h2 | ⟨h2, h2p⟩
  · exact Or.inl (lt_trans h2 h1)
  · exact Or.inl (h2 ▸ h1)
  · exact Or.inl (h1 ▸ h2)
  · exact Or.inr ⟨h1.trans h2, le_trans h1p h2p⟩

lemma rerankLE_total (a b : RerankedResult) : (rerankLE a b || rerankLE b a) = true := by
  simp only [rerankLE, Bool.or_eq_true, decide_eq_true_eq]
  rcases lt_trichotomy a.final_score b.final_score with h | h | h
  · exact Or.inr (Or.inl h)
  · rcases Nat.le_total a.position b.position with hp | hp
    · exact Or.inl (Or.inr ⟨h, hp⟩)
    · exact Or.inr (Or.inr ⟨h.symm, hp⟩)
  · exact Or.inl (Or.inl h)

lemma rerankModel_scored_pos_map (q : String) (cs : List SearchResult) :
    (cs.enum.map (fun p => mkScored q p.2 p.1)).map (fun r => r.position)
      = List.range cs.length := by
  rw [List.map_map]
  have : ((fun r : RerankedResult => r.position) ∘ fun p : Nat × SearchResult =>
      mkScored q p.2 p.1) = Prod.fst := by
    funext p; rfl
  rw [this, List.enum_map_fst]

/-- C1: for every query, non-empty candidate list and positive `topK`, the
re-ranker's output has length `min topK candidates.length` and is sorted by
`final_score` descending with ties broken by ascending original position. -/
theorem rerank_output_sorted_and_truncated (q : String) (cs : List SearchResult)
    (k : Nat) (hcs : cs ≠ []) (hk : 0 < k) :
    (rerankModel q cs k).length = min k cs.length ∧
    (rerankModel q cs k).Pairwise (fun a b =>
      b.final_score < a.final_score ∨
        (a.final_score = b.final_score ∧ a.position < b.position)) := by
  have hne : cs.isEmpty = false := by
    cases cs with
    | nil => exact absurd rfl hcs
    | cons x xs => rfl
  set scored := cs.enum.map (fun p => mkScored q p.2 p.1) with hscored
  have hmodel : rerankModel q cs k = (scored.mergeSort rerankLE).take k := by
    simp [rerankModel, hne, hscored]
  constructor
  · rw [hmodel, List.length_take, List.length_mergeSort]
    simp [hscored, List.enum_length]
  · have hsorted := @List.sorted_mergeSort RerankedResult rerankLE rerankLE_trans
      rerankLE_total scored
    have hperm : (scored.mergeSort rerankLE).Perm scored :=
      List.mergeSort_perm scored rerankLE
    have hposNodup : ((scored.mergeSort rerankLE).map (fun r => r.position)).Nodup := by
      rw [(hperm.map (fun r => r.position)).nodup_iff, hscored,
        rerankModel_scored_pos_map]
      exact List.nodup_range _
    have hpairNe : (scored.mergeSort rerankLE).Pairwise
        (fun a b => a.position ≠ b.position) :=
      List.pairwise_map.mp hposNodup
    have hcomb : (scored.mergeSort rerankLE).Pairwise (fun a b =>
        b.final_score < a.final_score ∨
          (a.final_score = b.final_score ∧ a.position < b.position)) :=
      (hsorted.and hpairNe).imp
        (fun {a b} hab => by
          rcases hab with ⟨hle, hne'⟩
          rcases (decide_eq_true_eq.mp hle) with h | ⟨h, hp⟩
          · exact Or.inl h
          · exact Or.inr ⟨h, lt_of_le_of_ne hp hne'⟩)
    rw [hmodel]
    exact List.Pairwise.sublist (List.take_sublist k _) hcomb

theorem rerank_output_sorted_and_truncated_witness :
    ([sampleCandidate] ≠ []) ∧ 0 < 1 ∧
    ((rerankModel "machine" [sampleCandidate] 1).length = min 1 [sampleCandidate].length ∧
      (rerankModel "machine" [sampleCandidate] 1).Pairwise (fun a b =>
        b.final_score < a.final_score ∨
          (a.final_score = b.final_score ∧ a.position < b.position))) :=
  ⟨by simp [sampleCandidate], Nat.one_pos,
    rerank_output_sorted_and_truncated "machine" [sampleCandidate] 1
      (by simp [sampleCandidate]) Nat.one_pos⟩

lemma ChatController.query_valid_str (env : Env) (q : String) (hq : q ≠ "") :
    ChatController.query env { query := some (.str q) }
      = ChatController.pipeline env q := by
  simp [ChatController.query, JsValue.truthy, JsValue.isString, JsValue.asString, hq]

/-- C9: `addDocuments` on the empty item list returns immediately with
success: the stored collection is unchanged and no collaborator (neither the
embedder nor the vector index) is called. -/
theorem addDocuments_empty_is_noop (env : Env) (st : StoreState) :
    VectorStore.addDocuments env st [] = (st, [], .ok ()) := rfl

/-- C3: when the analyzer call fails internally (thrown request or
unsuccessful reply), `analyzeQuery` still returns normally — the failure
never surfaces — with the safe default analysis: type "general", suggested
top-k 5, expansion on, complexity "medium", and query length the number of
space-separated words of the input. -/
theorem analyze_failure_returns_safe_default (env : Env) (q : String)
    (hfail : ∀ d, env.analyzeRaw q ≠ .ok d) :
    PythonService.analyzeQuery env q =
      { query_type := "general", top_k := 5, expand_query := true,
        query_length := (q.splitOn " ").length, complexity := "medium" } := by
  unfold PythonService.analyzeQuery
  cases h : env.analyzeRaw q with
  | thrown m => rfl
  | failure e => rfl
  | ok d => exact absurd h (hfail d)

theorem analyze_failure_returns_safe_default_witness :
    (∀ d, ({ happyEnv none [] with analyzeRaw := fun _ => .thrown "connection refused" }
        : Env).analyzeRaw "who teaches ml" ≠ .ok d) ∧
    PythonService.analyzeQuery
        { happyEnv none [] with analyzeRaw := fun _ => .thrown "connection refused" }
        "who teaches ml" =
      { query_type := "general", top_k := 5, expand_query := true,
        query_length := ("who teaches ml".splitOn " ").length, complexity := "medium" } :=
  ⟨fun d h => SvcRaw.noConfusion h,
    analyze_failure_returns_safe_default _ "who teaches ml"
      (fun d h => SvcRaw.noConfusion h)⟩

/-- C10: when the request body lacks the `query` field or its value is not a
string, the controller responds 400 (with the fixed validation error) and
makes no collaborator call at all. -/
theorem invalid_query_rejected_without_calls (env : Env) (body : ReqBody)
    (hbad : body.query = none ∨ ∃ v, body.query = some v ∧ v.isString = false) :
    (ChatController.query env body).1 = ChatController.badRequest ∧
    (ChatController.query env body).2 = [] := by
  rcases hbad with h | ⟨v, hv, hs⟩
  · simp [ChatController.query, h]
  · simp [ChatController.query, hv, hs]

theorem invalid_query_rejected_without_calls_witness :
    (({ query := some (.num 5) } : ReqBody).query = none ∨
      ∃ v, ({ query := some (.num 5) } : ReqBody).query = some v ∧ v.isString = false) ∧
    ((ChatController.query (happyEnv none []) { query := some (.num 5) }).1
        = ChatController.badRequest ∧
      (ChatController.query (happyEnv none []) { query := some (.num 5) }).2 = []) :=
  ⟨Or.inr ⟨.num 5, rfl, rfl⟩,
    invalid_query_rejected_without_calls (happyEnv none []) { query := some (.num 5) }
      (Or.inr ⟨.num 5, rfl, rfl⟩)⟩

/-- C2: if the embed step succeeds and the vector search returns zero
candidates, the controller answers 200 with the canned no-knowledge message
and an empty source list, and the generator is never invoked. -/
theorem empty_search_short_circuits (env : Env) (q : String) (hq : q ≠ "")
    (hembed : ∃ eq, PythonService.embedQuery env q
      (PythonService.analyzeQuery env q).expand_query = .ok eq)
    (hempty : ∀ e n, env.chromaQuery e n = .ok []) :
    (ChatController.query env { query := some (.str q) }).1
      = { status := 200, body := .success noKnowledgeAnswer [] none } ∧
    ∀ q2 ctx b, Call.generate q2 ctx b ∉
      (ChatController.query env { query := some (.str q) }).2 := by
  obtain ⟨eq, heq⟩ := hembed
  rw [ChatController.query_valid_str env q hq]
  simp only [ChatController.pipeline, VectorStore.queryWithEmbedding]
  rw [heq]
  simp [hempty]

theorem empty_search_short_circuits_witness :
    (ChatController.query (happyEnv none []) { query := some (.str "hi") }).1
      = { status := 200, body := .success noKnowledgeAnswer [] none } ∧
    ∀ q2 ctx b, Call.generate q2 ctx b ∉
      (ChatController.query (happyEnv none []) { query := some (.str "hi") }).2 :=
  empty_search_short_circuits (happyEnv none []) "hi" (by decide)
    ⟨_, rfl⟩ (fun e n => rfl)

/-- C4: whenever the pipeline reaches the retrieval step (the embedder
succeeded), the vector index is asked for exactly `min(topK * 2, 15)`
candidates, `topK` being the analyzer's suggested top-k — and for no other
candidate count during the request. -/
theorem retriever_overfetch_bound (env : Env) (q : String) (hq : q ≠ "")
    (eq : EmbedQueryResult)
    (hembed : PythonService.embedQuery env q
      (PythonService.analyzeQuery env q).expand_query = .ok eq) :
    Call.indexQuery (min ((PythonService.analyzeQuery env q).top_k * 2) 15)
        ∈ (ChatController.query env { query := some (.str q) }).2 ∧
    ∀ n, Call.indexQuery n ∈ (ChatController.query env { query := some (.str q) }).2 →
      n = min ((PythonService.analyzeQuery env q).top_k * 2) 15 := by
  rw [ChatController.query_valid_str env q hq]
  simp only [ChatController.pipeline, VectorStore.queryWithEmbedding]
  rw [hembed]
  cases hcq : env.chromaQuery eq.embedding
      (min ((PythonService.analyzeQuery env q).top_k * 2) 15) with
  | error m => simp [hcq]
  | ok rs =>
    by_cases hrs : rs = []
    · simp [hcq, hrs]
    · cases hrr : PythonService.rerank env q rs (PythonService.analyzeQuery env q).top_k with
      | error m => simp [hcq, hrs, hrr]
      | ok rr =>
        cases hg : PythonService.generate env q rr true with
        | error m => simp [hcq, hrs, hrr, hg]
        | ok gen => simp [hcq, hrs, hrr, hg]

theorem retriever_overfetch_bound_witness :
    Call.indexQuery (min ((PythonService.analyzeQuery (happyEnv none []) "hi").top_k * 2) 15)
        ∈ (ChatController.query (happyEnv none []) { query := some (.str "hi") }).2 ∧
    ∀ n, Call.indexQuery n
        ∈ (ChatController.query (happyEnv none []) { query := some (.str "hi") }).2 →
      n = min ((PythonService.analyzeQuery (happyEnv none []) "hi").top_k * 2) 15 :=
  retriever_overfetch_bound (happyEnv none []) "hi" (by decide) _ rfl

/-- C7: on the successful path with a non-empty re-ranked list, the full
re-ranked list is passed to the generator as context, while the user-visible
sources are exactly the first `min 3 length` re-ranked results, each carrying
that result's text, metadata and final score. -/
theorem generator_context_and_sources (env : Env) (q : String) (hq : q ≠ "")
    (eq : EmbedQueryResult) (rs : List SearchResult) (rr : List RerankedResult)
    (gen : GenerateResult)
    (hembed : PythonService.embedQuery env q
      (PythonService.analyzeQuery env q).expand_query = .ok eq)
    (hsearch : VectorStore.queryWithEmbedding env eq.embedding
      (min ((PythonService.analyzeQuery env q).top_k * 2) 15) = .ok rs)
    (hrs : rs ≠ [])
    (hrerank : PythonService.rerank env q rs
      (PythonService.analyzeQuery env q).top_k = .ok rr)
    (hgen : PythonService.generate env q rr true = .ok gen) :
    Call.generate q rr true ∈ (ChatController.query env { query := some (.str q) }).2 ∧
    (∃ meta, (ChatController.query env { query := some (.str q) }).1.body
        = .success gen.response ((rr.take 3).map mkSource) meta) ∧
    ((rr.take 3).map mkSource).length = min 3 rr.length ∧
    ∀ s ∈ (rr.take 3).map mkSource, ∃ r ∈ rr,
      s.text = r.text ∧ s.metadata = r.metadata ∧ s.score = r.final_score := by
  rw [ChatController.query_valid_str env q hq]
  simp only [VectorStore.queryWithEmbedding] at hsearch
  refine ⟨?_, ?_, ?_, ?_⟩
  · simp [ChatController.pipeline, VectorStore.queryWithEmbedding,
      hembed, hsearch, hrs, hrerank, hgen]
  · refine ⟨some
      { queryType := (PythonService.analyzeQuery env q).query_type
        contextChunks := gen.context_chunks
        expandedQuery := if eq.expanded_query = some q then none
          else some eq.expanded_query
        modelUsed := gen.model_used }, ?_⟩
    simp [ChatController.pipeline, VectorStore.queryWithEmbedding,
      hembed, hsearch, hrs, hrerank, hgen]
  · simp [List.length_take]
  · intro s hs
    rw [List.mem_map] at hs
    obtain ⟨r, hr, rfl⟩ := hs
    exact ⟨r, List.take_subset 3 rr hr, rfl, rfl, rfl⟩

theorem generator_context_and_sources_witness :
    Call.generate "hi" (rerankModel "hi" [sampleCandidate] 4) true
        ∈ (ChatController.query (happyEnv none [sampleCandidate])
            { query := some (.str "hi") }).2 ∧
    (∃ meta, (ChatController.query (happyEnv none [sampleCandidate])
          { query := some (.str "hi") }).1.body
        = .success (happyGen (rerankModel "hi" [sampleCandidate] 4).length).response
          (((rerankModel "hi" [sampleCandidate] 4).take 3).map mkSource) meta) ∧
    (((rerankModel "hi" [sampleCandidate] 4).take 3).map mkSource).length
        = min 3 (rerankModel "hi" [sampleCandidate] 4).length ∧
    ∀ s ∈ ((rerankModel "hi" [sampleCandidate] 4).take 3).map mkSource,
      ∃ r ∈ rerankModel "hi" [sampleCandidate] 4,
        s.text = r.text ∧ s.metadata = r.metadata ∧ s.score = r.final_score :=
  generator_context_and_sources (happyEnv none [sampleCandidate]) "hi" (by decide)
    _ [sampleCandidate] (rerankModel "hi" [sampleCandidate] 4) _
    rfl rfl (List.cons_ne_nil _ _) rfl rfl

/-- C8 counterexample: on a fully successful pipeline whose embedder reports
a null expanded query — so the embedded text is the original query "hi" —
the response metadata still carries the `expandedQuery` property, with value
null: the property is present although the embedded text does not differ
from the original query string. -/
theorem expandedQuery_present_without_differing_embedding :
    (ChatController.query (happyEnv none [sampleCandidate])
        { query := some (.str "hi") }).1.expandedQueryField = some none ∧
    embeddedText (happyEmbed none "hi") = "hi" :=
  ⟨rfl, rfl⟩

/-- C8 amended: on the successful path the response metadata carries the
`expandedQuery` property iff the embedder's reported expanded query differs,
as a nullable value, from the original query string (a null report therefore
yields the property present, with value null, even though the embedded text
is the original query); whenever the property is present its value is
exactly the embedder's reported expanded query. -/
theorem expandedQuery_field_matches_reported_expansion (env : Env) (q : String)
    (hq : q ≠ "")
    (eq : EmbedQueryResult) (rs : List SearchResult) (rr : List RerankedResult)
    (gen : GenerateResult)
    (hembed : PythonService.embedQuery env q
      (PythonService.analyzeQuery env q).expand_query = .ok eq)
    (hsearch : VectorStore.queryWithEmbedding env eq.embedding
      (min ((PythonService.analyzeQuery env q).top_k * 2) 15) = .ok rs)
    (hrs : rs ≠ [])
    (hrerank : PythonService.rerank env q rs
      (PythonService.analyzeQuery env q).top_k = .ok rr)
    (hgen : PythonService.generate env q rr true = .ok gen) :
    ((ChatController.query env { query := some (.str q) }).1.expandedQueryField ≠ none
      ↔ eq.expanded_query ≠ some q) ∧
    ∀ x, (ChatController.query env
        { query := some (.str q) }).1.expandedQueryField = some x →
      x = eq.expanded_query := by
  rw [ChatController.query_valid_str env q hq]
  simp only [VectorStore.queryWithEmbedding] at hsearch
  have hfield : (ChatController.pipeline env q).1.expandedQueryField
      = if eq.expanded_query = some q then none else some eq.expanded_query := by
    simp [ChatController.pipeline, VectorStore.queryWithEmbedding, hembed,
      hsearch, hrs, hrerank, hgen, HttpResponse.expandedQueryField]
  rw [hfield]
  by_cases hx : eq.expanded_query = some q
  · simp [hx]
  · simp [hx]

theorem expandedQuery_field_matches_reported_expansion_witness :
    ((ChatController.query (happyEnv (some "hello world") [sampleCandidate])
          { query := some (.str "hi") }).1.expandedQueryField ≠ none
      ↔ (happyEmbed (some "hello world") "hi").expanded_query ≠ some "hi") ∧
    ∀ x, (ChatController.query (happyEnv (some "hello world") [sampleCandidate])
        { query := some (.str "hi") }).1.expandedQueryField = some x →
      x = (happyEmbed (some "hello world") "hi").expanded_query :=
  expandedQuery_field_matches_reported_expansion
    (happyEnv (some "hello world") [sampleCandidate]) "hi" (by decide)
    (happyEmbed (some "hello world") "hi") [sampleCandidate]
    (rerankModel "hi" [sampleCandidate] 4) _
    rfl rfl (List.cons_ne_nil _ _) rfl rfl

/-- C5 counterexample: when the collection count fails (here with message
"chroma down"), `getCollectionStats` does not propagate the failure to its
caller — it swallows the error and returns the normal-looking default value
`{ count := 0 }`. -/
theorem getCollectionStats_swallows_count_failure :
    VectorStore.getCollectionStats
        { happyEnv none [] with collectionCount := .error "chroma down" }
      = .ok { count := 0 } := rfl

/-- C5 amended: failures of the embedding, query-embedding, index-query,
re-ranking and generation collaborators are each propagated to the caller as
a failure carrying the collaborator's message (both for thrown transport
errors and for `success = false` replies with an attached message) — but
`getCollectionStats` is the exception: a failing collection count is
swallowed and replaced by the default `{ count := 0 }` rather than passed
through. -/
theorem collaborator_failures_propagate_except_stats (env : Env)
    (texts : List String) (q : String) (e : List ℚ) (n : Nat)
    (rs : List SearchResult) (rr : List RerankedResult) (k : Nat) (m : String) :
    PythonService.embedTexts { env with embedTextsRaw := fun _ => .thrown m }
        texts = .error m ∧
    PythonService.embedTexts { env with embedTextsRaw := fun _ => .failure (some m) }
        texts = .error m ∧
    PythonService.embedQuery { env with embedQueryRaw := fun _ _ => .thrown m }
        q true = .error m ∧
    VectorStore.queryWithEmbedding { env with chromaQuery := fun _ _ => .error m }
        e n = .error m ∧
    PythonService.rerank { env with rerankRaw := fun _ _ _ => .thrown m }
        q rs k = .error m ∧
    PythonService.generate { env with generateRaw := fun _ _ _ => .thrown m }
        q rr true = .error m ∧
    VectorStore.getCollectionStats { env with collectionCount := .error m }
      = .ok { count := 0 } :=
  ⟨rfl, rfl, rfl, rfl, rfl, rfl, rfl⟩

/-- C6 counterexample: when the generator fails with message "boom", the 500
response body echoes that collaborator message verbatim in its `details`
field next to the generic error text — the internal detail is not withheld
from the user-visible response body. -/
theorem error_details_echo_collaborator_message :
    (ChatController.query
        { happyEnv none [sampleCandidate] with generateRaw := fun _ _ _ => .thrown "boom" }
        { query := some (.str "hi") }).1
      = { status := 500, body := .failure "Failed to process query" (some "boom") } :=
  rfl

/-- C6 amended: for every pipeline failure other than an analyzer failure,
the controller answers 500 with the generic "Failed to process query" error
and, in the same response body, a `details` field echoing the collaborator's
error message verbatim (the detail is logged AND echoed, not withheld). -/
theorem pipeline_failure_generic_error_with_details (env : Env) (q m : String)
    (hq : q ≠ "") (hfail : pipelineFails env q m) :
    (ChatController.query env { query := some (.str q) }).1
      = { status := 500, body := .failure "Failed to process query" (some m) } := by
  rw [ChatController.query_valid_str env q hq]
  rcases hfail with h | ⟨eq, he, hs⟩ | ⟨eq, rs, he, hs, hne, hr⟩
    | ⟨eq, rs, rr, he, hs, hne, hr, hg⟩
  · simp [ChatController.pipeline, VectorStore.queryWithEmbedding, h,
      ChatController.serverError]
  · simp only [VectorStore.queryWithEmbedding] at hs
    simp [ChatController.pipeline, VectorStore.queryWithEmbedding, he, hs,
      ChatController.serverError]
  · simp only [VectorStore.queryWithEmbedding] at hs
    simp [ChatController.pipeline, VectorStore.queryWithEmbedding, he, hs,
      hne, hr, ChatController.serverError]
  · simp only [VectorStore.queryWithEmbedding] at hs
    simp [ChatController.pipeline, VectorStore.queryWithEmbedding, he, hs,
      hne, hr, hg, ChatController.serverError]

theorem pipeline_failure_generic_error_with_details_witness :
    (ChatController.query
        { happyEnv none [sampleCandidate] with chromaQuery := fun _ _ => .error "timeout" }
        { query := some (.str "hi") }).1
      = { status := 500, body := .failure "Failed to process query" (some "timeout") } :=
  pipeline_failure_generic_error_with_details
    { happyEnv none [sampleCandidate] with chromaQuery := fun _ _ => .error "timeout" }
    "hi" "timeout" (by decide)
    (Or.inr (Or.inl ⟨happyEmbed none "hi", rfl, rfl⟩))
